import Mathlib

/-!
Verification of `scripts/fetch_nbro_aq.py`.

The script's core is the pure classification function `classify_pm25`
(a table-driven piecewise-linear PM2.5 → AQI interpolation), the timestamp
helper `iso_from_ms`, and the deterministic ordering applied to the output
station list in `main`.  This file embeds those parts shallowly:

* Python `float` values are modelled by `PyFloat`: an exact rational together
  with the IEEE special values `inf`, `-inf` and `nan`.  Precision rounding of
  individual operations is not modelled (no property proved here depends on
  it), but overflow of an operation's exact result to `±inf` is, because the
  behaviour of `classify_pm25` on extreme inputs depends on it
  (`(pm - 250.1) * 199` overflows to `inf` for large finite `pm`, the
  subsequent `inf / inf` is `nan`, and `int(round(nan))` raises).
* Fallible Python code is modelled with `Except PyErr`; an exception that the
  script does not catch shows up as `.error`.
* Dictionaries with a fixed key set are modelled as structures; a key that may
  be absent is modelled with `Option`.
-/

namespace AirQuality

/-- Python `float` values: exact rationals plus the IEEE special values. -/
inductive PyFloat where
  | finite (q : ℚ)
  | inf
  | ninf
  | nan
  deriving DecidableEq, Repr

/-- The smallest positive exact value that rounds to `inf` under IEEE-754
round-to-nearest-even on doubles: results with magnitude at least
`2^1024 - 2^970` overflow to infinity.  Written as an explicit numeral so
that it evaluates without exponentiation; `FLOAT_OVERFLOW_eq` checks it. -/
def FLOAT_OVERFLOW : ℚ := 179769313486231580793728971405303415079934132710037826936173778980444968292764750946649017977587207096330286416692887910946555547851940402630657488671505820681908902000708383676273854845817711531764475730270069855571366959622842914819860834936475292719074168444365510704342711559699508093042880177904174497792

/-- Overflow of an exact arithmetic result to `±inf`, as a C double does. -/
def clamp (q : ℚ) : PyFloat :=
  if FLOAT_OVERFLOW ≤ q then .inf
  else if q ≤ -FLOAT_OVERFLOW then .ninf
  else .finite q

/-- Python `<=` on floats (IEEE comparison: every comparison with `nan` is
false, `-inf` is below and `inf` above everything). -/
def pyLe : PyFloat → PyFloat → Bool
  | .nan, _ => false
  | _, .nan => false
  | .ninf, _ => true
  | _, .ninf => false
  | _, .inf => true
  | .inf, _ => false
  | .finite a, .finite b => decide (a ≤ b)

/-- Python `==` on floats (`nan` is not equal to anything, itself included). -/
def pyEq : PyFloat → PyFloat → Bool
  | .finite a, .finite b => decide (a = b)
  | .inf, .inf => true
  | .ninf, .ninf => true
  | _, _ => false

/-- Exact rational arithmetic written with `Rat.divInt` on numerators and
denominators, so that it evaluates inside the elaborator and the kernel
(Batteries marks `Rat.add`, `Rat.sub`, `Rat.mul` and `Rat.inv` irreducible).
The lemmas `ratAdd_eq`, `ratSub_eq`, `ratMul_eq` and `ratDiv_eq` below prove
these are ordinary `+`, `-`, `*` and `/` on `ℚ` (division by zero included),
so every definition using them means exactly what the infix operator would. -/
def ratAdd (a b : ℚ) : ℚ :=
  Rat.divInt (a.num * b.den + b.num * a.den) (a.den * b.den)

/-- Exact rational subtraction; see `ratAdd`. -/
def ratSub (a b : ℚ) : ℚ :=
  Rat.divInt (a.num * b.den - b.num * a.den) (a.den * b.den)

/-- Exact rational multiplication; see `ratAdd`. -/
def ratMul (a b : ℚ) : ℚ :=
  Rat.divInt (a.num * b.num) (a.den * b.den)

/-- Exact rational division; see `ratAdd`.  `ratDiv a 0 = 0 = a / 0`. -/
def ratDiv (a b : ℚ) : ℚ :=
  Rat.divInt (a.num * b.den) (a.den * b.num)

/-- Python unary minus on floats. -/
def pyNeg : PyFloat → PyFloat
  | .finite q => .finite (-q)
  | .inf => .ninf
  | .ninf => .inf
  | .nan => .nan

/-- Python `+` on floats. -/
def pyAdd : PyFloat → PyFloat → PyFloat
  | .nan, _ => .nan
  | _, .nan => .nan
  | .inf, .ninf => .nan
  | .ninf, .inf => .nan
  | .inf, _ => .inf
  | _, .inf => .inf
  | .ninf, _ => .ninf
  | _, .ninf => .ninf
  | .finite a, .finite b => clamp (ratAdd a b)

/-- Python `-` on floats. -/
def pySub : PyFloat → PyFloat → PyFloat
  | .nan, _ => .nan
  | _, .nan => .nan
  | .inf, .inf => .nan
  | .inf, _ => .inf
  | .ninf, .ninf => .nan
  | .ninf, _ => .ninf
  | _, .inf => .ninf
  | _, .ninf => .inf
  | .finite a, .finite b => clamp (ratSub a b)

/-- Python `*` on floats. -/
def pyMul : PyFloat → PyFloat → PyFloat
  | .nan, _ => .nan
  | _, .nan => .nan
  | .inf, .inf => .inf
  | .inf, .ninf => .ninf
  | .ninf, .inf => .ninf
  | .ninf, .ninf => .inf
  | .inf, .finite b => if b = 0 then .nan else if 0 < b then .inf else .ninf
  | .finite a, .inf => if a = 0 then .nan else if 0 < a then .inf else .ninf
  | .ninf, .finite b => if b = 0 then .nan else if 0 < b then .ninf else .inf
  | .finite a, .ninf => if a = 0 then .nan else if 0 < a then .ninf else .inf
  | .finite a, .finite b => clamp (ratMul a b)

/-- Python `/` on floats.  A zero divisor raises `ZeroDivisionError` in
Python; that case is unreachable in `classify_pm25` (the `pm_hi == pm_lo`
guard runs first and exact finite values subtract to `0` only when equal),
so it is mapped to `nan` here. -/
def pyDiv : PyFloat → PyFloat → PyFloat
  | .nan, _ => .nan
  | _, .nan => .nan
  | .inf, .inf => .nan
  | .inf, .ninf => .nan
  | .ninf, .inf => .nan
  | .ninf, .ninf => .nan
  | .inf, .finite b => if b = 0 then .nan else if 0 < b then .inf else .ninf
  | .ninf, .finite b => if b = 0 then .nan else if 0 < b then .ninf else .inf
  | .finite _, .inf => .finite 0
  | .finite _, .ninf => .finite 0
  | .finite a, .finite b => if b = 0 then .nan else clamp (ratDiv a b)

/-- Python's builtin `round` to an integer: round half to even (compare the
fractional part with one half; on the exact tie pick the even neighbour). -/
def pyRound (q : ℚ) : ℤ :=
  if ratSub q ⌊q⌋ < mkRat 1 2 then ⌊q⌋
  else if mkRat 1 2 < ratSub q ⌊q⌋ then ⌊q⌋ + 1
  else if ⌊q⌋ % 2 = 0 then ⌊q⌋ else ⌊q⌋ + 1

/-- Exceptions the script can raise on the modelled paths. -/
inductive PyErr where
  | valueError
  | overflowError
  deriving DecidableEq, Repr

instance {ε α : Type} [DecidableEq ε] [DecidableEq α] : DecidableEq (Except ε α) := fun x y =>
  match x, y with
  | .ok a, .ok b =>
    if h : a = b then .isTrue (by rw [h]) else .isFalse (fun hc => by cases hc; exact h rfl)
  | .error a, .error b =>
    if h : a = b then .isTrue (by rw [h]) else .isFalse (fun hc => by cases hc; exact h rfl)
  | .ok _, .error _ => .isFalse (fun hc => by cases hc)
  | .error _, .ok _ => .isFalse (fun hc => by cases hc)

/-- Python `int(round(x))` for a float `x`: `round(nan)` raises `ValueError`,
`round(±inf)` raises `OverflowError`. -/
def pyIntRound : PyFloat → Except PyErr ℤ
  | .finite q => .ok (pyRound q)
  | .nan => .error .valueError
  | .inf => .error .overflowError
  | .ninf => .error .overflowError

/-- A JSON scalar as it reaches `float(...)` in the script: a number or a
string.  (`None` is handled one level up with `Option`.) -/
inductive PyVal where
  | num (x : PyFloat)
  | str (s : String)
  deriving DecidableEq

/-- Longest prefix of decimal digits: accumulated value, digit count, rest. -/
def takeDigits : ℕ → ℕ → List Char → ℕ × ℕ × List Char
  | acc, n, [] => (acc, n, [])
  | acc, n, c :: cs =>
    if c.isDigit then takeDigits (10 * acc + (c.toNat - 48)) (n + 1) cs
    else (acc, n, c :: cs)

/-- Exponent digits of a float literal, applied to mantissa `m`. -/
def expPart (m : ℚ) (sgn : ℤ) (cs : List Char) : Option ℚ :=
  match takeDigits 0 0 cs with
  | (e, n, rest) =>
    if n = 0 ∨ rest ≠ [] then none
    else some (if sgn < 0 then ratDiv m ((10 ^ e : ℕ) : ℚ) else ratMul m ((10 ^ e : ℕ) : ℚ))

/-- Optional exponent part (`e`/`E`, optional sign, digits) of a float
literal. -/
def expTail (m : ℚ) : List Char → Option ℚ
  | [] => some m
  | c :: cs =>
    if c = 'e' ∨ c = 'E' then
      match cs with
      | '+' :: cs2 => expPart m 1 cs2
      | '-' :: cs2 => expPart m (-1) cs2
      | _ => expPart m 1 cs
    else none

/-- Unsigned decimal float literal: `digits [. digits] [exp]` with at least
one digit. -/
def parseUnsigned (cs : List Char) : Option ℚ :=
  match takeDigits 0 0 cs with
  | (ip, ni, rest) =>
    match rest with
    | '.' :: r2 =>
      match takeDigits 0 0 r2 with
      | (fp, nf, r3) =>
        if ni + nf = 0 then none
        else expTail (ratAdd (ip : ℚ) (mkRat (fp : ℤ) (10 ^ nf))) r3
    | _ => if ni = 0 then none else expTail (ip : ℚ) rest

/-- Signless part of CPython `float(str)`: named specials or a decimal
literal; a literal whose value exceeds the double range becomes `inf`. -/
def parseSignless (cs : List Char) : Option PyFloat :=
  if cs = "inf".data ∨ cs = "infinity".data then some .inf
  else if cs = "nan".data then some .nan
  else (parseUnsigned cs).map clamp

/-- ASCII whitespace, which `float(str)` strips from both ends. -/
def isSpaceChar (c : Char) : Bool :=
  c = ' ' || c = '\t' || c = '\n' || c = '\r' || c = '\x0b' || c = '\x0c'

/-- Strip whitespace from both ends of a character list. -/
def trimChars (cs : List Char) : List Char :=
  ((cs.dropWhile isSpaceChar).reverse.dropWhile isSpaceChar).reverse

/-- ASCII lower-casing of one character. -/
def lowerChar (c : Char) : Char :=
  if 'A' ≤ c ∧ c ≤ 'Z' then Char.ofNat (c.toNat + 32) else c

/-- CPython `float(str)` on the forms relevant here: surrounding whitespace
is stripped, the match is case-insensitive, an optional sign precedes either
a named special (`inf`, `infinity`, `nan`) or a decimal literal.  (Underscore
digit separators are not modelled; no input in this development uses them.) -/
def pyFloatOfString (s : String) : Option PyFloat :=
  match (trimChars s.data).map lowerChar with
  | '+' :: r => parseSignless r
  | '-' :: r => (parseSignless r).map pyNeg
  | r => parseSignless r

/-- Python `float(v)` for a JSON scalar `v`: numbers coerce to themselves,
strings are parsed, a non-numeric string raises `ValueError`. -/
def pyFloatCoerce : PyVal → Except PyErr PyFloat
  | .num x => .ok x
  | .str s =>
    match pyFloatOfString s with
    | some x => .ok x
    | none => .error .valueError

/-- One row of the `BREAKPOINTS` table:
`(pm25_low, pm25_high, aqi_low, aqi_high, label)`. -/
structure Breakpoint where
  pm_lo : PyFloat
  pm_hi : PyFloat
  aqi_lo : ℤ
  aqi_hi : ℤ
  label : String
  deriving DecidableEq, Repr

/-- The breakpoint table of the script.  Decimal literals are written as
exact rationals (`mkRat 251 10 = 25.1`, and so on; `BREAKPOINTS_values`
below restates every entry with decimal literals). -/
def BREAKPOINTS : List Breakpoint :=
  [⟨.finite 0, .finite 25, 0, 50, "Good"⟩,
   ⟨.finite (mkRat 251 10), .finite 50, 51, 100, "Moderate"⟩,
   ⟨.finite (mkRat 501 10), .finite 75, 101, 150, "Unhealthy for Sensitive Groups"⟩,
   ⟨.finite (mkRat 751 10), .finite 150, 151, 200, "Unhealthy"⟩,
   ⟨.finite (mkRat 1501 10), .finite 250, 201, 300, "Very Unhealthy"⟩,
   ⟨.finite (mkRat 2501 10), .inf, 301, 500, "Hazardous"⟩]

/-- The dictionary `classify_pm25` returns.  `sl_aqi_est = none` models the
key being present with value `None`; `none` in the two range fields models
the key being absent from the dictionary (the script later reads all four
keys with `.get`, which yields `None` for an absent key either way). -/
structure ClassResult where
  sl_aqi_label : String
  sl_aqi_est : Option ℤ
  sl_aqi_range : Option (ℤ × ℤ)
  pm25_range : Option (PyFloat × Option PyFloat)
  deriving DecidableEq, Repr

/-- `{"sl_aqi_label": "Unknown", "sl_aqi_est": None}`. -/
def unknownResult : ClassResult := ⟨"Unknown", none, none, none⟩

/-- The chained comparison `pm_lo <= pm <= pm_hi` of the loop body (the
loop header destructures each tuple, mirrored here by the pattern). -/
def bandTest : Breakpoint → PyFloat → Bool
  | ⟨pm_lo, pm_hi, _, _, _⟩, pm => pyLe pm_lo pm && pyLe pm pm_hi

/-- The estimate computed inside the matched band: `aqi_hi` directly when
`pm_hi == pm_lo`, otherwise
`aqi_lo + (pm - pm_lo) * (aqi_hi - aqi_lo) / (pm_hi - pm_lo)`. -/
def bandEst : Breakpoint → PyFloat → PyFloat
  | ⟨pm_lo, pm_hi, aqi_lo, aqi_hi, _⟩, pm =>
    if pyEq pm_hi pm_lo then .finite (aqi_hi : ℚ)
    else
      pyAdd (.finite (aqi_lo : ℚ))
        (pyDiv (pyMul (pySub pm pm_lo) (.finite ((aqi_hi - aqi_lo : ℤ) : ℚ)))
          (pySub pm_hi pm_lo))

/-- The dictionary returned for a matched band: label, `int(round(est))`,
the band's AQI range, and `[pm_lo, pm_hi if pm_hi != inf else None]`. -/
def bandResult : Breakpoint → ℤ → ClassResult
  | ⟨pm_lo, pm_hi, aqi_lo, aqi_hi, label⟩, n =>
    ⟨label, some n, some (aqi_lo, aqi_hi),
      some (pm_lo, if pyEq pm_hi .inf then none else some pm_hi)⟩

/-- The `for` loop of `classify_pm25`: first matching band wins; falling off
the end yields the Unknown dictionary. -/
def classifyLoop (pm : PyFloat) : List Breakpoint → Except PyErr ClassResult
  | [] => .ok unknownResult
  | b :: rest =>
    if bandTest b pm then
      match pyIntRound (bandEst b pm) with
      | .ok n => .ok (bandResult b n)
      | .error e => .error e
    else classifyLoop pm rest

/-- `classify_pm25` of the script.  `None` short-circuits to Unknown; the
unguarded `float(pm25)` coercion propagates `ValueError` for a non-numeric
string. -/
def classify_pm25 : Option PyVal → Except PyErr ClassResult
  | none => .ok unknownResult
  | some v =>
    match pyFloatCoerce v with
    | .error e => .error e
    | .ok pm => classifyLoop pm BREAKPOINTS

/-- Proleptic-Gregorian civil date `(year, month, day)` from a count of days
since 1970-01-01 (Howard Hinnant's `civil_from_days`). -/
def civilFromDays (z0 : ℤ) : ℤ × ℤ × ℤ :=
  let z := z0 + 719468
  let era := z.fdiv 146097
  let doe := z - era * 146097
  let yoe := (doe - doe.ediv 1460 + doe.ediv 36524 - doe.ediv 146096).ediv 365
  let y := yoe + era * 400
  let doy := doe - (365 * yoe + yoe.ediv 4 - yoe.ediv 100)
  let mp := (5 * doy + 2).ediv 153
  let d := doy - (153 * mp + 2).ediv 5 + 1
  let m := mp + (if mp < 10 then 3 else -9)
  (y + (if m ≤ 2 then 1 else 0), m, d)

/-- Decimal rendering of a non-negative integer, zero-padded to width `w`. -/
def padNum (w : ℕ) (n : ℤ) : String :=
  let s := toString n
  if s.length < w then String.mk (List.replicate (w - s.length) '0') ++ s else s

/-- `datetime.fromtimestamp(secs, tz=timezone.utc).isoformat().replace("+00:00", "Z")`.
CPython converts the float of seconds to whole microseconds with
round-half-even, raises (caught by `iso_from_ms`) when the year falls outside
1..9999, and `isoformat` prints fractional seconds only when the microsecond
field is non-zero.  The trailing `+00:00` that `isoformat` emits and
`.replace` rewrites is modelled directly as the final `"Z"`. -/
def fromtimestampIso (secs : ℚ) : Option String :=
  let us := pyRound (ratMul secs 1000000)
  let day := us.fdiv 86400000000
  let usod := us - 86400000000 * day
  let c := civilFromDays day
  if c.1 < 1 ∨ 9999 < c.1 then none
  else
    let sec := usod.ediv 1000000
    let usec := usod.emod 1000000
    let hh := sec.ediv 3600
    let mi := (sec.emod 3600).ediv 60
    let ss := sec.emod 60
    some (padNum 4 c.1 ++ "-" ++ padNum 2 c.2.1 ++ "-" ++ padNum 2 c.2.2 ++ "T" ++
      padNum 2 hh ++ ":" ++ padNum 2 mi ++ ":" ++ padNum 2 ss ++
      (if usec = 0 then "" else "." ++ padNum 6 usec) ++ "Z")

/-- `iso_from_ms` of the script: the whole body sits in a `try` whose
`except` returns `None`, so a failed `float(...)` coercion and a
`fromtimestamp` on `nan`, `±inf` or an out-of-range value all yield `None`. -/
def iso_from_ms : Option PyVal → Option String
  | none => none
  | some v =>
    match pyFloatCoerce v with
    | .error _ => none
    | .ok x =>
      match pyDiv x (.finite 1000) with
      | .finite secs => fromtimestampIso secs
      | _ => none

/-- The fields of one raw reading that the script reads by name.  Raw
readings are open dictionaries; only these keys influence the enrichment and
the ordering, all others are passed through unchanged. -/
structure RawReading where
  name : Option String
  meta_device_id : Option String
  pm25 : Option PyVal
  timestamp : Option PyVal
  deriving DecidableEq

/-- One element of the output `stations` list: the raw fields plus the five
enrichment keys `main` adds. -/
structure EnrichedReading where
  name : Option String
  meta_device_id : Option String
  pm25 : Option PyVal
  timestamp : Option PyVal
  timestamp_iso_utc : Option String
  sl_aqi_label : String
  sl_aqi_est : Option ℤ
  sl_aqi_range : Option (ℤ × ℤ)
  pm25_band_range : Option (PyFloat × Option PyFloat)
  deriving DecidableEq

/-- The body of the enrichment loop in `main` for one reading.  An exception
out of `classify_pm25` propagates and aborts the run. -/
def enrichOne (item : RawReading) : Except PyErr EnrichedReading := do
  let info ← classify_pm25 item.pm25
  pure ⟨item.name, item.meta_device_id, item.pm25, item.timestamp,
    iso_from_ms item.timestamp, info.sl_aqi_label, info.sl_aqi_est,
    info.sl_aqi_range, info.pm25_range⟩

/-- Code points of a string, the unit Python string comparison works on. -/
def strCodes (s : String) : List ℕ := s.data.map Char.toNat

/-- Code-point lexicographic `<=` on strings (as code-point lists). -/
def lexLe : List ℕ → List ℕ → Bool
  | [], _ => true
  | _ :: _, [] => false
  | a :: as, b :: bs =>
    if a < b then true else if b < a then false else lexLe as bs

/-- The sort key of `main`:
`(str(x.get("name", "")), str(x.get("meta_device_id", "")))`. -/
def sortKey (e : EnrichedReading) : List ℕ × List ℕ :=
  (strCodes (e.name.getD ""), strCodes (e.meta_device_id.getD ""))

/-- Python tuple `<=` on two string keys: lexicographic on the pair. -/
def keyLe (p q : List ℕ × List ℕ) : Bool :=
  if p.1 = q.1 then lexLe p.2 q.2 else lexLe p.1 q.1

/-- Ordering relation `main`'s sort uses on enriched readings. -/
def stationLe (a b : EnrichedReading) : Prop :=
  keyLe (sortKey a) (sortKey b) = true

instance : DecidableRel stationLe := fun _ _ =>
  inferInstanceAs (Decidable (_ = true))

/-- `enriched.sort(key=...)`: Python's sort is a stable ascending sort, which
insertion sort implements (two stable sorts under the same total preorder
produce the same list). -/
def sortStations (l : List EnrichedReading) : List EnrichedReading :=
  List.insertionSort stationLe l

/-- The enrich-then-sort pipeline of `main` that produces the `stations`
value of the output document. -/
def mainStations (data : List RawReading) : Except PyErr (List EnrichedReading) := do
  let enriched ← data.mapM enrichOne
  pure (sortStations enriched)

/-- Numeric inputs on which `classify_pm25` completes without raising:
everything except `+inf` and finite values so large that the top band's
interpolation numerator `(pm - 250.1) * 199` reaches the float overflow
threshold (at or beyond it, the estimate becomes `nan` and `int(round(nan))`
raises `ValueError`).  Written with the reducible rational operations so the
predicate is decidable by evaluation. -/
def safeInput : PyFloat → Prop
  | .finite q => ratMul (ratSub q (mkRat 2501 10)) 199 < FLOAT_OVERFLOW
  | .inf => False
  | .ninf => True
  | .nan => True

instance : DecidablePred safeInput := fun x =>
  match x with
  | .finite _ => inferInstanceAs (Decidable (_ < _))
  | .inf => inferInstanceAs (Decidable False)
  | .ninf => inferInstanceAs (Decidable True)
  | .nan => inferInstanceAs (Decidable True)

/-! ### Basic facts about the rational-arithmetic layer -/

theorem ratAdd_eq (a b : ℚ) : ratAdd a b = a + b := by
  have ha : ((a.den : ℚ)) ≠ 0 := Nat.cast_ne_zero.mpr a.den_ne_zero
  have hb : ((b.den : ℚ)) ≠ 0 := Nat.cast_ne_zero.mpr b.den_ne_zero
  have h1 := Rat.num_div_den a
  have h2 := Rat.num_div_den b
  rw [div_eq_iff ha] at h1
  rw [div_eq_iff hb] at h2
  rw [ratAdd, Rat.divInt_eq_div]
  push_cast
  rw [div_eq_iff (mul_ne_zero ha hb), h1, h2]
  ring

theorem ratSub_eq (a b : ℚ) : ratSub a b = a - b := by
  have ha : ((a.den : ℚ)) ≠ 0 := Nat.cast_ne_zero.mpr a.den_ne_zero
  have hb : ((b.den : ℚ)) ≠ 0 := Nat.cast_ne_zero.mpr b.den_ne_zero
  have h1 := Rat.num_div_den a
  have h2 := Rat.num_div_den b
  rw [div_eq_iff ha] at h1
  rw [div_eq_iff hb] at h2
  rw [ratSub, Rat.divInt_eq_div]
  push_cast
  rw [div_eq_iff (mul_ne_zero ha hb), h1, h2]
  ring

theorem ratMul_eq (a b : ℚ) : ratMul a b = a * b := by
  have ha : ((a.den : ℚ)) ≠ 0 := Nat.cast_ne_zero.mpr a.den_ne_zero
  have hb : ((b.den : ℚ)) ≠ 0 := Nat.cast_ne_zero.mpr b.den_ne_zero
  have h1 := Rat.num_div_den a
  have h2 := Rat.num_div_den b
  rw [div_eq_iff ha] at h1
  rw [div_eq_iff hb] at h2
  rw [ratMul, Rat.divInt_eq_div]
  push_cast
  rw [div_eq_iff (mul_ne_zero ha hb), h1, h2]
  ring

theorem ratDiv_eq (a b : ℚ) : ratDiv a b = a / b := by
  rcases eq_or_ne b 0 with rfl | hb0
  · show Rat.divInt (a.num * (0:ℚ).den) (a.den * (0:ℚ).num) = a / 0
    norm_num
  · have ha : ((a.den : ℚ)) ≠ 0 := Nat.cast_ne_zero.mpr a.den_ne_zero
    have hb : ((b.den : ℚ)) ≠ 0 := Nat.cast_ne_zero.mpr b.den_ne_zero
    have hbn : ((b.num : ℚ)) ≠ 0 := Int.cast_ne_zero.mpr (Rat.num_ne_zero.mpr hb0)
    have h1 := Rat.num_div_den a
    have h2 := Rat.num_div_den b
    rw [div_eq_iff ha] at h1
    rw [div_eq_iff hb] at h2
    rw [ratDiv, Rat.divInt_eq_div]
    push_cast
    rw [div_eq_iff (mul_ne_zero ha hbn), div_mul_eq_mul_div, eq_div_iff hb0, h1, h2]
    ring

theorem mkRatHalf_eq : mkRat 1 2 = (1 : ℚ) / 2 := by
  rw [Rat.mkRat_eq_divInt, Rat.divInt_eq_div]
  norm_num

/-- The overflow threshold numeral is `2 ^ 1024 - 2 ^ 970`. -/
theorem FLOAT_OVERFLOW_eq : FLOAT_OVERFLOW = ((2 ^ 1024 - 2 ^ 970 : ℕ) : ℚ) := by
  rw [FLOAT_OVERFLOW]
  norm_num

theorem e9_lt_FLOAT_OVERFLOW : (10 ^ 9 : ℚ) < FLOAT_OVERFLOW := by
  rw [FLOAT_OVERFLOW]
  norm_num

/-- Values of small magnitude are not clamped. -/
theorem clamp_small {q : ℚ} (h1 : -(10 ^ 9) ≤ q) (h2 : q ≤ 10 ^ 9) : clamp q = .finite q := by
  have h3 := e9_lt_FLOAT_OVERFLOW
  unfold clamp
  rw [if_neg (by linarith), if_neg (by linarith)]

theorem clamp_big {q : ℚ} (h : FLOAT_OVERFLOW ≤ q) : clamp q = .inf := by
  unfold clamp
  rw [if_pos h]

theorem clamp_mid {q : ℚ} (h1 : q < FLOAT_OVERFLOW) (h2 : -FLOAT_OVERFLOW < q) :
    clamp q = .finite q := by
  unfold clamp
  rw [if_neg (by linarith), if_neg (by linarith)]

/-! ### Facts about `pyRound` -/

theorem pyRound_intCast (n : ℤ) : pyRound ((n : ℤ) : ℚ) = n := by
  unfold pyRound
  rw [ratSub_eq, mkRatHalf_eq, Int.floor_intCast, sub_self, if_pos (by norm_num)]

theorem pyRound_mono {a b : ℚ} (h : a ≤ b) : pyRound a ≤ pyRound b := by
  unfold pyRound
  rw [ratSub_eq, ratSub_eq, mkRatHalf_eq]
  have hf : ⌊a⌋ ≤ ⌊b⌋ := Int.floor_le_floor h
  have ha1 : (⌊a⌋ : ℚ) ≤ a := Int.floor_le a
  have ha2 : a < ⌊a⌋ + 1 := Int.lt_floor_add_one a
  have hb1 : (⌊b⌋ : ℚ) ≤ b := Int.floor_le b
  have hb2 : b < ⌊b⌋ + 1 := Int.lt_floor_add_one b
  rcases lt_or_eq_of_le hf with hlt | heq
  · split_ifs <;> omega
  · rw [heq]
    have hr : a - (⌊b⌋ : ℚ) ≤ b - ⌊b⌋ := by
      rw [heq] at ha1
      linarith
    rw [heq] at ha1 ha2
    split_ifs <;> first | omega | (exfalso; linarith)

/-! ### Stepping lemmas for the classification loop -/

theorem classifyLoop_cons_neg {pm : PyFloat} {b : Breakpoint} {rest : List Breakpoint}
    (h : bandTest b pm = false) : classifyLoop pm (b :: rest) = classifyLoop pm rest := by
  simp [classifyLoop, h]

theorem classifyLoop_cons_pos {pm : PyFloat} {b : Breakpoint} {rest : List Breakpoint}
    (h : bandTest b pm = true) :
    classifyLoop pm (b :: rest) =
      match pyIntRound (bandEst b pm) with
      | .ok n => .ok (bandResult b n)
      | .error e => .error e := by
  simp [classifyLoop, h]

theorem mkRat_251 : (mkRat 251 10 : ℚ) = 251 / 10 := by
  rw [Rat.mkRat_eq_divInt, Rat.divInt_eq_div]
  norm_num

theorem mkRat_501 : (mkRat 501 10 : ℚ) = 501 / 10 := by
  rw [Rat.mkRat_eq_divInt, Rat.divInt_eq_div]
  norm_num

theorem mkRat_751 : (mkRat 751 10 : ℚ) = 751 / 10 := by
  rw [Rat.mkRat_eq_divInt, Rat.divInt_eq_div]
  norm_num

theorem mkRat_1501 : (mkRat 1501 10 : ℚ) = 1501 / 10 := by
  rw [Rat.mkRat_eq_divInt, Rat.divInt_eq_div]
  norm_num

theorem mkRat_2501 : (mkRat 2501 10 : ℚ) = 2501 / 10 := by
  rw [Rat.mkRat_eq_divInt, Rat.divInt_eq_div]
  norm_num

/-- On a band with finite bounds the estimate is the exact linear
interpolation: all intermediate float operations stay far below the overflow
threshold. -/
theorem bandEst_finite {lo hi : ℚ} {alo ahi : ℤ} {lab : String} {q : ℚ}
    (hlh : lo < hi) (h1 : lo ≤ q) (h2 : q ≤ hi)
    (hhi4 : hi ≤ 10 ^ 4) (hlo4 : -(10 ^ 4) ≤ lo)
    (halo : -(10 ^ 4) ≤ (alo : ℚ)) (hahi : (ahi : ℚ) ≤ 10 ^ 4) (haa : alo ≤ ahi) :
    bandEst ⟨.finite lo, .finite hi, alo, ahi, lab⟩ (.finite q) =
      .finite (alo + (q - lo) * (ahi - alo) / (hi - lo)) := by
  have hd : (0 : ℚ) < hi - lo := by linarith
  have haaQ : (alo : ℚ) ≤ (ahi : ℚ) := by exact_mod_cast haa
  have hne : pyEq (.finite hi) (.finite lo) = false := by
    simp only [pyEq, decide_eq_false_iff_not]
    intro hc
    exact absurd hc (by linarith)
  have s1 : pySub (.finite q) (.finite lo) = .finite (q - lo) := by
    show clamp (ratSub q lo) = _
    rw [ratSub_eq]
    exact clamp_small (by linarith) (by linarith)
  have s2 : pyMul (.finite (q - lo)) (.finite ((ahi - alo : ℤ) : ℚ)) =
      .finite ((q - lo) * (ahi - alo)) := by
    show clamp (ratMul (q - lo) ((ahi - alo : ℤ) : ℚ)) = _
    rw [ratMul_eq]
    have : ((ahi - alo : ℤ) : ℚ) = (ahi : ℚ) - alo := by push_cast; ring
    rw [this]
    exact clamp_small (by nlinarith) (by nlinarith)
  have s3 : pySub (.finite hi) (.finite lo) = .finite (hi - lo) := by
    show clamp (ratSub hi lo) = _
    rw [ratSub_eq]
    exact clamp_small (by linarith) (by linarith)
  have hq1 : (0 : ℚ) ≤ (q - lo) * ((ahi : ℚ) - alo) / (hi - lo) :=
    div_nonneg (mul_nonneg (by linarith) (by linarith)) (le_of_lt hd)
  have hq2 : (q - lo) * ((ahi : ℚ) - alo) / (hi - lo) ≤ (ahi : ℚ) - alo := by
    rw [div_le_iff hd]
    nlinarith
  have s4 : pyDiv (.finite ((q - lo) * (ahi - alo))) (.finite (hi - lo)) =
      .finite ((q - lo) * (ahi - alo) / (hi - lo)) := by
    show (if (hi - lo : ℚ) = 0 then PyFloat.nan
      else clamp (ratDiv ((q - lo) * (ahi - alo)) (hi - lo))) = _
    rw [if_neg (by linarith), ratDiv_eq]
    exact clamp_small (by linarith) (by linarith)
  have s5 : pyAdd (.finite ((alo : ℤ) : ℚ)) (.finite ((q - lo) * (ahi - alo) / (hi - lo))) =
      .finite (alo + (q - lo) * (ahi - alo) / (hi - lo)) := by
    show clamp (ratAdd ((alo : ℤ) : ℚ) ((q - lo) * (ahi - alo) / (hi - lo))) = _
    rw [ratAdd_eq]
    exact clamp_small (by linarith) (by linarith)
  simp only [bandEst, hne, Bool.false_eq_true, if_false, s1, s2, s3, s4, s5]

/-- The interpolated estimate stays inside the band's AQI interval. -/
theorem interp_bounds {lo hi q : ℚ} {alo ahi : ℤ} (hlh : lo < hi)
    (h1 : lo ≤ q) (h2 : q ≤ hi) (haa : alo ≤ ahi) :
    (alo : ℚ) ≤ alo + (q - lo) * (ahi - alo) / (hi - lo) ∧
      alo + (q - lo) * (ahi - alo) / (hi - lo) ≤ (ahi : ℚ) := by
  have hd : (0 : ℚ) < hi - lo := by linarith
  have haaQ : (alo : ℚ) ≤ (ahi : ℚ) := by exact_mod_cast haa
  have hq1 : (0 : ℚ) ≤ (q - lo) * ((ahi : ℚ) - alo) / (hi - lo) :=
    div_nonneg (mul_nonneg (by linarith) (by linarith)) (le_of_lt hd)
  have hq2 : (q - lo) * ((ahi : ℚ) - alo) / (hi - lo) ≤ (ahi : ℚ) - alo := by
    rw [div_le_iff hd]
    nlinarith
  constructor <;> linarith

/-- The interpolated estimate is monotone in the concentration. -/
theorem interp_mono {lo hi : ℚ} {alo ahi : ℤ} (hlh : lo < hi) (haa : alo ≤ ahi)
    {q1 q2 : ℚ} (h : q1 ≤ q2) :
    alo + (q1 - lo) * (ahi - alo) / (hi - lo) ≤ alo + (q2 - lo) * (ahi - alo) / (hi - lo) := by
  have hd : (0 : ℚ) < hi - lo := by linarith
  have haaQ : (alo : ℚ) ≤ (ahi : ℚ) := by exact_mod_cast haa
  have hnum : (q1 - lo) * ((ahi : ℚ) - alo) ≤ (q2 - lo) * ((ahi : ℚ) - alo) := by nlinarith
  have := (div_le_div_iff_of_pos_right hd).mpr hnum
  linarith

theorem BREAKPOINTS_values :
    BREAKPOINTS = [⟨.finite 0, .finite 25, 0, 50, "Good"⟩,
      ⟨.finite (251 / 10), .finite 50, 51, 100, "Moderate"⟩,
      ⟨.finite (501 / 10), .finite 75, 101, 150, "Unhealthy for Sensitive Groups"⟩,
      ⟨.finite (751 / 10), .finite 150, 151, 200, "Unhealthy"⟩,
      ⟨.finite (1501 / 10), .finite 250, 201, 300, "Very Unhealthy"⟩,
      ⟨.finite (2501 / 10), .inf, 301, 500, "Hazardous"⟩] := by
  rw [BREAKPOINTS, mkRat_251, mkRat_501, mkRat_751, mkRat_1501, mkRat_2501]

/-- Inputs in the band [0, 25] classify as "Good". -/
theorem classify_good {q : ℚ} (hlo : 0 ≤ q) (hhi : q ≤ 25) :
    classify_pm25 (some (.num (.finite q))) =
      .ok ⟨"Good",
        some (pyRound ((0 : ℤ) + (q - (0)) * ((50 : ℤ) - (0 : ℤ)) / ((25) - (0)))),
        some (0, 50), some (.finite (0), some (.finite 25))⟩ := by
  have tt : bandTest ⟨.finite 0, .finite 25, 0, 50, "Good"⟩ (.finite q) = true := by
    simp only [bandTest, pyLe, Bool.and_eq_true, decide_eq_true_eq]
    exact ⟨hlo, hhi⟩
  have e := @bandEst_finite (0) (25) 0 50 "Good" q
    (by norm_num) hlo hhi (by norm_num) (by norm_num) (by norm_num) (by norm_num) (by norm_num)
  show classifyLoop (.finite q) BREAKPOINTS = _
  rw [BREAKPOINTS_values, classifyLoop_cons_pos tt, e]
  simp only [pyIntRound, bandResult, pyEq]
  norm_num

/-- Inputs in the band [251 / 10, 50] classify as "Moderate". -/
theorem classify_moderate {q : ℚ} (hlo : 251 / 10 ≤ q) (hhi : q ≤ 50) :
    classify_pm25 (some (.num (.finite q))) =
      .ok ⟨"Moderate",
        some (pyRound ((51 : ℤ) + (q - (251 / 10)) * ((100 : ℤ) - (51 : ℤ)) / ((50) - (251 / 10)))),
        some (51, 100), some (.finite (251 / 10), some (.finite 50))⟩ := by
  have t0 : bandTest ⟨.finite 0, .finite 25, 0, 50, "Good"⟩ (.finite q) = false := by
    simp only [bandTest, pyLe, Bool.and_eq_false_iff, decide_eq_false_iff_not, not_le]
    right
    linarith
  have tt : bandTest ⟨.finite (251 / 10), .finite 50, 51, 100, "Moderate"⟩ (.finite q) = true := by
    simp only [bandTest, pyLe, Bool.and_eq_true, decide_eq_true_eq]
    exact ⟨hlo, hhi⟩
  have e := @bandEst_finite (251 / 10) (50) 51 100 "Moderate" q
    (by norm_num) hlo hhi (by norm_num) (by norm_num) (by norm_num) (by norm_num) (by norm_num)
  show classifyLoop (.finite q) BREAKPOINTS = _
  rw [BREAKPOINTS_values, classifyLoop_cons_neg t0, classifyLoop_cons_pos tt, e]
  simp only [pyIntRound, bandResult, pyEq]
  norm_num

/-- Inputs in the band [501 / 10, 75] classify as "Unhealthy for Sensitive Groups". -/
theorem classify_usg {q : ℚ} (hlo : 501 / 10 ≤ q) (hhi : q ≤ 75) :
    classify_pm25 (some (.num (.finite q))) =
      .ok ⟨"Unhealthy for Sensitive Groups",
        some (pyRound ((101 : ℤ) + (q - (501 / 10)) * ((150 : ℤ) - (101 : ℤ)) / ((75) - (501 / 10)))),
        some (101, 150), some (.finite (501 / 10), some (.finite 75))⟩ := by
  have t0 : bandTest ⟨.finite 0, .finite 25, 0, 50, "Good"⟩ (.finite q) = false := by
    simp only [bandTest, pyLe, Bool.and_eq_false_iff, decide_eq_false_iff_not, not_le]
    right
    linarith
  have t1 : bandTest ⟨.finite (251 / 10), .finite 50, 51, 100, "Moderate"⟩ (.finite q) = false := by
    simp only [bandTest, pyLe, Bool.and_eq_false_iff, decide_eq_false_iff_not, not_le]
    right
    linarith
  have tt : bandTest ⟨.finite (501 / 10), .finite 75, 101, 150, "Unhealthy for Sensitive Groups"⟩ (.finite q) = true := by
    simp only [bandTest, pyLe, Bool.and_eq_true, decide_eq_true_eq]
    exact ⟨hlo, hhi⟩
  have e := @bandEst_finite (501 / 10) (75) 101 150 "Unhealthy for Sensitive Groups" q
    (by norm_num) hlo hhi (by norm_num) (by norm_num) (by norm_num) (by norm_num) (by norm_num)
  show classifyLoop (.finite q) BREAKPOINTS = _
  rw [BREAKPOINTS_values, classifyLoop_cons_neg t0, classifyLoop_cons_neg t1, classifyLoop_cons_pos tt, e]
  simp only [pyIntRound, bandResult, pyEq]
  norm_num

/-- Inputs in the band [751 / 10, 150] classify as "Unhealthy". -/
theorem classify_unhealthy {q : ℚ} (hlo : 751 / 10 ≤ q) (hhi : q ≤ 150) :
    classify_pm25 (some (.num (.finite q))) =
      .ok ⟨"Unhealthy",
        some (pyRound ((151 : ℤ) + (q - (751 / 10)) * ((200 : ℤ) - (151 : ℤ)) / ((150) - (751 / 10)))),
        some (151, 200), some (.finite (751 / 10), some (.finite 150))⟩ := by
  have t0 : bandTest ⟨.finite 0, .finite 25, 0, 50, "Good"⟩ (.finite q) = false := by
    simp only [bandTest, pyLe, Bool.and_eq_false_iff, decide_eq_false_iff_not, not_le]
    right
    linarith
  have t1 : bandTest ⟨.finite (251 / 10), .finite 50, 51, 100, "Moderate"⟩ (.finite q) = false := by
    simp only [bandTest, pyLe, Bool.and_eq_false_iff, decide_eq_false_iff_not, not_le]
    right
    linarith
  have t2 : bandTest ⟨.finite (501 / 10), .finite 75, 101, 150, "Unhealthy for Sensitive Groups"⟩ (.finite q) = false := by
    simp only [bandTest, pyLe, Bool.and_eq_false_iff, decide_eq_false_iff_not, not_le]
    right
    linarith
  have tt : bandTest ⟨.finite (751 / 10), .finite 150, 151, 200, "Unhealthy"⟩ (.finite q) = true := by
    simp only [bandTest, pyLe, Bool.and_eq_true, decide_eq_true_eq]
    exact ⟨hlo, hhi⟩
  have e := @bandEst_finite (751 / 10) (150) 151 200 "Unhealthy" q
    (by norm_num) hlo hhi (by norm_num) (by norm_num) (by norm_num) (by norm_num) (by norm_num)
  show classifyLoop (.finite q) BREAKPOINTS = _
  rw [BREAKPOINTS_values, classifyLoop_cons_neg t0, classifyLoop_cons_neg t1, classifyLoop_cons_neg t2, classifyLoop_cons_pos tt, e]
  simp only [pyIntRound, bandResult, pyEq]
  norm_num

/-- Inputs in the band [1501 / 10, 250] classify as "Very Unhealthy". -/
theorem classify_very_unhealthy {q : ℚ} (hlo : 1501 / 10 ≤ q) (hhi : q ≤ 250) :
    classify_pm25 (some (.num (.finite q))) =
      .ok ⟨"Very Unhealthy",
        some (pyRound ((201 : ℤ) + (q - (1501 / 10)) * ((300 : ℤ) - (201 : ℤ)) / ((250) - (1501 / 10)))),
        some (201, 300), some (.finite (1501 / 10), some (.finite 250))⟩ := by
  have t0 : bandTest ⟨.finite 0, .finite 25, 0, 50, "Good"⟩ (.finite q) = false := by
    simp only [bandTest, pyLe, Bool.and_eq_false_iff, decide_eq_false_iff_not, not_le]
    right
    linarith
  have t1 : bandTest ⟨.finite (251 / 10), .finite 50, 51, 100, "Moderate"⟩ (.finite q) = false := by
    simp only [bandTest, pyLe, Bool.and_eq_false_iff, decide_eq_false_iff_not, not_le]
    right
    linarith
  have t2 : bandTest ⟨.finite (501 / 10), .finite 75, 101, 150, "Unhealthy for Sensitive Groups"⟩ (.finite q) = false := by
    simp only [bandTest, pyLe, Bool.and_eq_false_iff, decide_eq_false_iff_not, not_le]
    right
    linarith
  have t3 : bandTest ⟨.finite (751 / 10), .finite 150, 151, 200, "Unhealthy"⟩ (.finite q) = false := by
    simp only [bandTest, pyLe, Bool.and_eq_false_iff, decide_eq_false_iff_not, not_le]
    right
    linarith
  have tt : bandTest ⟨.finite (1501 / 10), .finite 250, 201, 300, "Very Unhealthy"⟩ (.finite q) = true := by
    simp only [bandTest, pyLe, Bool.and_eq_true, decide_eq_true_eq]
    exact ⟨hlo, hhi⟩
  have e := @bandEst_finite (1501 / 10) (250) 201 300 "Very Unhealthy" q
    (by norm_num) hlo hhi (by norm_num) (by norm_num) (by norm_num) (by norm_num) (by norm_num)
  show classifyLoop (.finite q) BREAKPOINTS = _
  rw [BREAKPOINTS_values, classifyLoop_cons_neg t0, classifyLoop_cons_neg t1, classifyLoop_cons_neg t2, classifyLoop_cons_neg t3, classifyLoop_cons_pos tt, e]
  simp only [pyIntRound, bandResult, pyEq]
  norm_num

/-- Inputs at least 250.1 whose interpolation numerator stays below the float
range classify as "Hazardous" with estimate exactly 301: the division by the
infinite band width yields zero. -/
theorem classify_hazardous {q : ℚ} (hlo : 2501 / 10 ≤ q)
    (hov : (q - 2501 / 10) * 199 < FLOAT_OVERFLOW) :
    classify_pm25 (some (.num (.finite q))) =
      .ok ⟨"Hazardous", some 301, some (301, 500), some (.finite (2501 / 10), none)⟩ := by
  have hT := e9_lt_FLOAT_OVERFLOW
  have t0 : bandTest ⟨.finite 0, .finite 25, 0, 50, "Good"⟩ (.finite q) = false := by
    simp only [bandTest, pyLe, Bool.and_eq_false_iff, decide_eq_false_iff_not, not_le]
    right
    linarith
  have t1 : bandTest ⟨.finite (251 / 10), .finite 50, 51, 100, "Moderate"⟩ (.finite q) = false := by
    simp only [bandTest, pyLe, Bool.and_eq_false_iff, decide_eq_false_iff_not, not_le]
    right
    linarith
  have t2 : bandTest ⟨.finite (501 / 10), .finite 75, 101, 150,
      "Unhealthy for Sensitive Groups"⟩ (.finite q) = false := by
    simp only [bandTest, pyLe, Bool.and_eq_false_iff, decide_eq_false_iff_not, not_le]
    right
    linarith
  have t3 : bandTest ⟨.finite (751 / 10), .finite 150, 151, 200, "Unhealthy"⟩
      (.finite q) = false := by
    simp only [bandTest, pyLe, Bool.and_eq_false_iff, decide_eq_false_iff_not, not_le]
    right
    linarith
  have t4 : bandTest ⟨.finite (1501 / 10), .finite 250, 201, 300, "Very Unhealthy"⟩
      (.finite q) = false := by
    simp only [bandTest, pyLe, Bool.and_eq_false_iff, decide_eq_false_iff_not, not_le]
    right
    linarith
  have tt : bandTest ⟨.finite (2501 / 10), .inf, 301, 500, "Hazardous"⟩ (.finite q) = true := by
    simp only [bandTest, pyLe, Bool.and_eq_true, decide_eq_true_eq]
    exact ⟨hlo, trivial⟩
  have hsub : q - 2501 / 10 < FLOAT_OVERFLOW := by nlinarith
  have s1 : pySub (.finite q) (.finite (2501 / 10)) = .finite (q - 2501 / 10) := by
    show clamp (ratSub q (2501 / 10)) = _
    rw [ratSub_eq]
    exact clamp_mid hsub (by linarith)
  have c199 : ((500 - 301 : ℤ) : ℚ) = 199 := by norm_num
  have s2 : pyMul (.finite (q - 2501 / 10)) (.finite ((500 - 301 : ℤ) : ℚ)) =
      .finite ((q - 2501 / 10) * 199) := by
    show clamp (ratMul (q - 2501 / 10) ((500 - 301 : ℤ) : ℚ)) = _
    rw [ratMul_eq, c199]
    exact clamp_mid hov (by nlinarith)
  have e : bandEst ⟨.finite (2501 / 10), .inf, 301, 500, "Hazardous"⟩ (.finite q) =
      .finite (((301 : ℤ) : ℚ) + 0) := by
    have s5 : pyAdd (.finite ((301 : ℤ) : ℚ)) (.finite 0) = .finite (((301 : ℤ) : ℚ) + 0) := by
      show clamp (ratAdd ((301 : ℤ) : ℚ) 0) = _
      rw [ratAdd_eq]
      exact clamp_small (by norm_num) (by norm_num)
    simp only [bandEst, pyEq, Bool.false_eq_true, if_false, s1, s2]
    show pyAdd _ (pyDiv (.finite ((q - 2501 / 10) * 199)) (pySub .inf (.finite (2501 / 10)))) = _
    show pyAdd _ (pyDiv (.finite ((q - 2501 / 10) * 199)) .inf) = _
    show pyAdd (.finite ((301 : ℤ) : ℚ)) (.finite 0) = _
    exact s5
  show classifyLoop (.finite q) BREAKPOINTS = _
  rw [BREAKPOINTS_values, classifyLoop_cons_neg t0, classifyLoop_cons_neg t1,
    classifyLoop_cons_neg t2, classifyLoop_cons_neg t3, classifyLoop_cons_neg t4,
    classifyLoop_cons_pos tt, e]
  have h301 : (((301 : ℤ) : ℚ) + 0) = ((301 : ℤ) : ℚ) := by ring
  rw [h301]
  simp only [pyIntRound, bandResult, pyEq, pyRound_intCast]
  norm_num

/-- Inputs at least 250.1 whose interpolation numerator reaches the float
range make the estimate `nan` (`inf * 199 / inf` or `inf / inf`), and
`int(round(nan))` raises `ValueError`. -/
theorem classify_hazardous_overflow {q : ℚ} (hlo : 2501 / 10 ≤ q)
    (hov : FLOAT_OVERFLOW ≤ (q - 2501 / 10) * 199) :
    classify_pm25 (some (.num (.finite q))) = .error .valueError := by
  have hT := e9_lt_FLOAT_OVERFLOW
  have t0 : bandTest ⟨.finite 0, .finite 25, 0, 50, "Good"⟩ (.finite q) = false := by
    simp only [bandTest, pyLe, Bool.and_eq_false_iff, decide_eq_false_iff_not, not_le]
    right
    linarith
  have t1 : bandTest ⟨.finite (251 / 10), .finite 50, 51, 100, "Moderate"⟩ (.finite q) = false := by
    simp only [bandTest, pyLe, Bool.and_eq_false_iff, decide_eq_false_iff_not, not_le]
    right
    linarith
  have t2 : bandTest ⟨.finite (501 / 10), .finite 75, 101, 150,
      "Unhealthy for Sensitive Groups"⟩ (.finite q) = false := by
    simp only [bandTest, pyLe, Bool.and_eq_false_iff, decide_eq_false_iff_not, not_le]
    right
    linarith
  have t3 : bandTest ⟨.finite (751 / 10), .finite 150, 151, 200, "Unhealthy"⟩
      (.finite q) = false := by
    simp only [bandTest, pyLe, Bool.and_eq_false_iff, decide_eq_false_iff_not, not_le]
    right
    linarith
  have t4 : bandTest ⟨.finite (1501 / 10), .finite 250, 201, 300, "Very Unhealthy"⟩
      (.finite q) = false := by
    simp only [bandTest, pyLe, Bool.and_eq_false_iff, decide_eq_false_iff_not, not_le]
    right
    linarith
  have tt : bandTest ⟨.finite (2501 / 10), .inf, 301, 500, "Hazardous"⟩ (.finite q) = true := by
    simp only [bandTest, pyLe, Bool.and_eq_true, decide_eq_true_eq]
    exact ⟨hlo, trivial⟩
  have e : bandEst ⟨.finite (2501 / 10), .inf, 301, 500, "Hazardous"⟩ (.finite q) =
      PyFloat.nan := by
    by_cases hsub : FLOAT_OVERFLOW ≤ q - 2501 / 10
    · have s1 : pySub (.finite q) (.finite (2501 / 10)) = .inf := by
        show clamp (ratSub q (2501 / 10)) = _
        rw [ratSub_eq]
        exact clamp_big hsub
      simp only [bandEst, pyEq, Bool.false_eq_true, if_false, s1]
      show pyAdd _ (pyDiv (pyMul .inf (.finite ((500 - 301 : ℤ) : ℚ))) (pySub .inf (.finite (2501 / 10)))) = _
      have c199 : ((500 - 301 : ℤ) : ℚ) = 199 := by norm_num
      have m : pyMul PyFloat.inf (.finite ((500 - 301 : ℤ) : ℚ)) = PyFloat.inf := by
        show (if ((500 - 301 : ℤ) : ℚ) = 0 then PyFloat.nan
          else if 0 < ((500 - 301 : ℤ) : ℚ) then PyFloat.inf else PyFloat.ninf) = _
        rw [if_neg (by rw [c199]; norm_num), if_pos (by rw [c199]; norm_num)]
      rw [m]
      rfl
    · push_neg at hsub
      have s1 : pySub (.finite q) (.finite (2501 / 10)) = .finite (q - 2501 / 10) := by
        show clamp (ratSub q (2501 / 10)) = _
        rw [ratSub_eq]
        exact clamp_mid hsub (by linarith)
      have c199 : ((500 - 301 : ℤ) : ℚ) = 199 := by norm_num
      have s2 : pyMul (.finite (q - 2501 / 10)) (.finite ((500 - 301 : ℤ) : ℚ)) =
          PyFloat.inf := by
        show clamp (ratMul (q - 2501 / 10) ((500 - 301 : ℤ) : ℚ)) = _
        rw [ratMul_eq, c199]
        exact clamp_big hov
      simp only [bandEst, pyEq, Bool.false_eq_true, if_false, s1, s2]
      rfl
  show classifyLoop (.finite q) BREAKPOINTS = _
  rw [BREAKPOINTS_values, classifyLoop_cons_neg t0, classifyLoop_cons_neg t1,
    classifyLoop_cons_neg t2, classifyLoop_cons_neg t3, classifyLoop_cons_neg t4,
    classifyLoop_cons_pos tt, e]
  rfl

/-- The loop yields Unknown when every band test fails. -/
theorem classifyLoop_unknown {pm : PyFloat} {L : List Breakpoint}
    (h : ∀ b ∈ L, bandTest b pm = false) : classifyLoop pm L = .ok unknownResult := by
  induction L with
  | nil => rfl
  | cons b rest ih =>
    rw [classifyLoop_cons_neg (h b (List.mem_cons_self b rest))]
    exact ih fun x hx => h x (List.mem_cons_of_mem b hx)

/-- Every region the breakpoint table does not cover (negative values and the
five decile-wide gaps between consecutive bands) falls through the loop to the
Unknown dictionary. -/
theorem classify_unknown_cases {q : ℚ}
    (h : q < 0 ∨ (25 < q ∧ q < 251 / 10) ∨ (50 < q ∧ q < 501 / 10) ∨
      (75 < q ∧ q < 751 / 10) ∨ (150 < q ∧ q < 1501 / 10) ∨ (250 < q ∧ q < 2501 / 10)) :
    classify_pm25 (some (.num (.finite q))) = .ok unknownResult := by
  show classifyLoop (.finite q) BREAKPOINTS = _
  apply classifyLoop_unknown
  intro b hb
  rw [BREAKPOINTS_values] at hb
  fin_cases hb <;>
    simp only [bandTest, pyLe, Bool.and_eq_false_iff, decide_eq_false_iff_not, not_le] <;>
    rcases h with h | ⟨h, h'⟩ | ⟨h, h'⟩ | ⟨h, h'⟩ | ⟨h, h'⟩ | ⟨h, h'⟩ <;>
    first
      | (left; linarith)
      | (right; linarith)

/-! ### The sort order of `main` is a total preorder -/

theorem lexLe_total : ∀ x y : List ℕ, lexLe x y = true ∨ lexLe y x = true := by
  intro x
  induction x with
  | nil => intro y; left; rfl
  | cons a as ih =>
    intro y
    match y with
    | [] => right; rfl
    | b :: bs =>
      by_cases hab : a < b
      · left
        simp [lexLe, hab]
      · by_cases hba : b < a
        · right
          simp [lexLe, hba]
        · have hev : a = b := by omega
          subst hev
          rcases ih bs with h | h
          · left
            simpa [lexLe] using h
          · right
            simpa [lexLe] using h

theorem lexLe_trans :
    ∀ x y z : List ℕ, lexLe x y = true → lexLe y z = true → lexLe x z = true := by
  intro x
  induction x with
  | nil => intro y z _ _; rfl
  | cons a as ih =>
    intro y z hxy hyz
    match y, z with
    | [], _ => simp [lexLe] at hxy
    | _ :: _, [] => simp [lexLe] at hyz
    | b :: bs, c :: cs =>
      simp only [lexLe] at hxy hyz ⊢
      split_ifs at hxy hyz ⊢ <;> first | rfl | omega | (exact ih bs cs hxy hyz)

theorem lexLe_antisymm :
    ∀ x y : List ℕ, lexLe x y = true → lexLe y x = true → x = y := by
  intro x
  induction x with
  | nil => intro y _ hyx; cases y with
    | nil => rfl
    | cons b bs => simp [lexLe] at hyx
  | cons a as ih =>
    intro y hxy hyx
    match y with
    | [] => simp [lexLe] at hxy
    | b :: bs =>
      simp only [lexLe] at hxy hyx
      split_ifs at hxy hyx with h1 h2 <;> try omega
      have : a = b := by omega
      subst this
      rw [ih bs hxy hyx]

theorem keyLe_total (p q : List ℕ × List ℕ) : keyLe p q = true ∨ keyLe q p = true := by
  unfold keyLe
  by_cases h : p.1 = q.1
  · rw [if_pos h, if_pos h.symm]
    exact lexLe_total p.2 q.2
  · rw [if_neg h, if_neg fun hc => h hc.symm]
    exact lexLe_total p.1 q.1

theorem keyLe_trans (p q r : List ℕ × List ℕ) :
    keyLe p q = true → keyLe q r = true → keyLe p r = true := by
  unfold keyLe
  by_cases h1 : p.1 = q.1 <;> by_cases h2 : q.1 = r.1
  · rw [if_pos h1, if_pos h2, if_pos (h1.trans h2)]
    exact lexLe_trans p.2 q.2 r.2
  · rw [if_pos h1, if_neg h2, if_neg fun hc => h2 (h1.symm.trans hc), h1]
    exact fun _ h => h
  · rw [if_neg h1, if_pos h2, if_neg fun hc => h1 (hc.trans h2.symm), ← h2]
    exact fun h _ => h
  · intro hxy hyz
    by_cases h3 : p.1 = r.1
    · rw [if_neg h1] at hxy
      rw [if_neg h2] at hyz
      rw [← h3] at hyz
      exact absurd (lexLe_antisymm p.1 q.1 hxy hyz) h1
    · rw [if_neg h1] at hxy
      rw [if_neg h2] at hyz
      rw [if_neg h3]
      exact lexLe_trans p.1 q.1 r.1 hxy hyz

/-! ### Claim theorems -/

/-- C1, counterexample: the claim promises a result without exception for
every numeric input including non-finite values, but `classify_pm25(inf)`
matches the top band, the interpolation evaluates to `nan`
(`inf * 199 / inf`), and `int(round(nan))` raises `ValueError`. -/
theorem C1_counterexample :
    classify_pm25 (some (.num PyFloat.inf)) = .error PyErr.valueError := by decide

/-- C1 (amended): for every numeric input other than `+inf` and finite values
at or beyond the overflow threshold of the top band's interpolation numerator
(`(pm - 250.1) * 199 ≥ 2^1024 - 2^970`, i.e. `pm` above roughly `9.03e305`),
`classify_pm25` returns a dictionary and raises no exception.  `-inf`, `nan`
and negative values fall through to the Unknown dictionary. -/
theorem C1_no_exception_unless_overflow (x : PyFloat) (h1 : x ≠ PyFloat.inf)
    (h2 : safeInput x) : ∃ r, classify_pm25 (some (.num x)) = .ok r := by
  cases x with
  | inf => exact absurd rfl h1
  | nan => exact ⟨unknownResult, by decide⟩
  | ninf => exact ⟨unknownResult, by decide⟩
  | finite q =>
    have hq : (q - 2501 / 10) * 199 < FLOAT_OVERFLOW := by
      have h3 : ratMul (ratSub q (mkRat 2501 10)) 199 < FLOAT_OVERFLOW := h2
      rwa [ratMul_eq, ratSub_eq, mkRat_2501] at h3
    rcases lt_or_le q 0 with h | h0
    · exact ⟨_, classify_unknown_cases (Or.inl h)⟩
    rcases le_or_lt q 25 with h1a | h1a
    · exact ⟨_, classify_good h0 h1a⟩
    rcases lt_or_le q (251 / 10) with h1b | h1b
    · exact ⟨_, classify_unknown_cases (Or.inr (Or.inl ⟨h1a, h1b⟩))⟩
    rcases le_or_lt q 50 with h2a | h2a
    · exact ⟨_, classify_moderate h1b h2a⟩
    rcases lt_or_le q (501 / 10) with h2b | h2b
    · exact ⟨_, classify_unknown_cases (Or.inr (Or.inr (Or.inl ⟨h2a, h2b⟩)))⟩
    rcases le_or_lt q 75 with h3a | h3a
    · exact ⟨_, classify_usg h2b h3a⟩
    rcases lt_or_le q (751 / 10) with h3b | h3b
    · exact ⟨_, classify_unknown_cases (Or.inr (Or.inr (Or.inr (Or.inl ⟨h3a, h3b⟩))))⟩
    rcases le_or_lt q 150 with h4a | h4a
    · exact ⟨_, classify_unhealthy h3b h4a⟩
    rcases lt_or_le q (1501 / 10) with h4b | h4b
    · exact ⟨_, classify_unknown_cases (Or.inr (Or.inr (Or.inr (Or.inr (Or.inl ⟨h4a, h4b⟩)))))⟩
    rcases le_or_lt q 250 with h5a | h5a
    · exact ⟨_, classify_very_unhealthy h4b h5a⟩
    rcases lt_or_le q (2501 / 10) with h5b | h5b
    · exact ⟨_, classify_unknown_cases (Or.inr (Or.inr (Or.inr (Or.inr (Or.inr ⟨h5a, h5b⟩)))))⟩
    · exact ⟨_, classify_hazardous h5b hq⟩

/-- C1, witness: the amended theorem applied at the in-range input `10.0`. -/
theorem C1_witness :
    PyFloat.finite 10 ≠ PyFloat.inf ∧ safeInput (.finite 10) ∧
    ∃ r, classify_pm25 (some (.num (.finite 10))) = .ok r :=
  ⟨by decide, by decide, C1_no_exception_unless_overflow (.finite 10) (by decide) (by decide)⟩

/-- C2, counterexample: `classify_pm25("unparseable")` does not return the
Unknown dictionary — the unguarded `float(pm25)` raises `ValueError`, which
propagates and fails the run. -/
theorem C2_counterexample :
    classify_pm25 (some (.str "unparseable")) = .error PyErr.valueError ∧
    classify_pm25 (some (.str "unparseable")) ≠
      .ok ⟨"Unknown", none, none, none⟩ :=
  ⟨by decide, by decide⟩

/-- C2 (amended): a non-absent input that cannot be coerced to a number makes
`classify_pm25` raise the coercion error (`ValueError` for a non-numeric
string) instead of degrading to Unknown; only the absent input (`None`)
yields the Unknown dictionary. -/
theorem C2_noncoercible_raises :
    (∀ (v : PyVal) (e : PyErr), pyFloatCoerce v = .error e →
      classify_pm25 (some v) = .error e) ∧
    classify_pm25 none = .ok ⟨"Unknown", none, none, none⟩ := by
  constructor
  · intro v e h
    simp [classify_pm25, h]
  · rfl

/-- C2, witness: the amended theorem applied to the string "unparseable". -/
theorem C2_witness :
    pyFloatCoerce (.str "unparseable") = .error PyErr.valueError ∧
    classify_pm25 (some (.str "unparseable")) = .error PyErr.valueError :=
  ⟨by decide, C2_noncoercible_raises.1 (.str "unparseable") .valueError (by decide)⟩

/-- C3, counterexample: `mkRat 501 20 = 25.05` is non-negative but lies in
the gap between the Good band (up to 25.0) and the Moderate band (from 25.1),
so `classify_pm25` returns the Unknown dictionary, not a band. -/
theorem C3_counterexample :
    (0 : ℚ) ≤ mkRat 501 20 ∧ (mkRat 501 20 : ℚ) = 25.05 ∧
    classify_pm25 (some (.num (.finite (mkRat 501 20)))) =
      .ok ⟨"Unknown", none, none, none⟩ :=
  ⟨by decide, by rw [Rat.mkRat_eq_divInt, Rat.divInt_eq_div]; norm_num, by decide⟩

/-- C3 (amended): the bands are contiguous only at one-decile granularity;
the table leaves the five open gaps `(25, 25.1)`, `(50, 50.1)`, `(75, 75.1)`,
`(150, 150.1)` and `(250, 250.1)`.  Every `v ≥ 0` outside those gaps (and
below the top band's overflow threshold, `safeInput`) matches some band, and
the resulting label is one of the six band names, never "Unknown". -/
theorem C3_bands_cover_outside_gaps (q : ℚ) (h0 : 0 ≤ q) (hs : safeInput (.finite q))
    (g1 : ¬(25 < q ∧ q < 251 / 10)) (g2 : ¬(50 < q ∧ q < 501 / 10))
    (g3 : ¬(75 < q ∧ q < 751 / 10)) (g4 : ¬(150 < q ∧ q < 1501 / 10))
    (g5 : ¬(250 < q ∧ q < 2501 / 10)) :
    ∃ r, classify_pm25 (some (.num (.finite q))) = .ok r ∧
      r.sl_aqi_label ∈ ["Good", "Moderate", "Unhealthy for Sensitive Groups",
        "Unhealthy", "Very Unhealthy", "Hazardous"] := by
  have hq : (q - 2501 / 10) * 199 < FLOAT_OVERFLOW := by
    have h3 : ratMul (ratSub q (mkRat 2501 10)) 199 < FLOAT_OVERFLOW := hs
    rwa [ratMul_eq, ratSub_eq, mkRat_2501] at h3
  rcases le_or_lt q 25 with h1a | h1a
  · exact ⟨_, classify_good h0 h1a, by simp⟩
  have h1b : 251 / 10 ≤ q := by
    by_contra hc
    push_neg at hc
    exact g1 ⟨h1a, hc⟩
  rcases le_or_lt q 50 with h2a | h2a
  · exact ⟨_, classify_moderate h1b h2a, by simp⟩
  have h2b : 501 / 10 ≤ q := by
    by_contra hc
    push_neg at hc
    exact g2 ⟨h2a, hc⟩
  rcases le_or_lt q 75 with h3a | h3a
  · exact ⟨_, classify_usg h2b h3a, by simp⟩
  have h3b : 751 / 10 ≤ q := by
    by_contra hc
    push_neg at hc
    exact g3 ⟨h3a, hc⟩
  rcases le_or_lt q 150 with h4a | h4a
  · exact ⟨_, classify_unhealthy h3b h4a, by simp⟩
  have h4b : 1501 / 10 ≤ q := by
    by_contra hc
    push_neg at hc
    exact g4 ⟨h4a, hc⟩
  rcases le_or_lt q 250 with h5a | h5a
  · exact ⟨_, classify_very_unhealthy h4b h5a, by simp⟩
  have h5b : 2501 / 10 ≤ q := by
    by_contra hc
    push_neg at hc
    exact g5 ⟨h5a, hc⟩
  exact ⟨_, classify_hazardous h5b hq, by simp⟩

/-- C3, witness: the amended theorem applied at `v = 0`. -/
theorem C3_witness :
    (0 : ℚ) ≤ 0 ∧ safeInput (.finite 0) ∧
    ∃ r, classify_pm25 (some (.num (.finite 0))) = .ok r ∧
      r.sl_aqi_label ∈ ["Good", "Moderate", "Unhealthy for Sensitive Groups",
        "Unhealthy", "Very Unhealthy", "Hazardous"] :=
  ⟨by decide, by decide,
    C3_bands_cover_outside_gaps 0 (by decide) (by decide) (by decide) (by decide)
      (by decide) (by decide) (by decide)⟩

/-- C4: band matching is inclusive on both ends: `classify_pm25(25.0)` is
Good with estimate 50 (a value equal to a band's `pm_high` matches that band,
not the next) and `classify_pm25(25.1)` is Moderate with estimate 51
(the table entry `mkRat 251 10` is the literal `25.1`). -/
theorem C4_boundary_bands :
    (mkRat 251 10 : ℚ) = 25.1 ∧
    classify_pm25 (some (.num (.finite 25))) =
      .ok ⟨"Good", some 50, some (0, 50), some (.finite 0, some (.finite 25))⟩ ∧
    classify_pm25 (some (.num (.finite (mkRat 251 10)))) =
      .ok ⟨"Moderate", some 51, some (51, 100),
        some (.finite (mkRat 251 10), some (.finite 50))⟩ :=
  ⟨by rw [Rat.mkRat_eq_divInt, Rat.divInt_eq_div]; norm_num, by decide, by decide⟩

/-- C6: `classify_pm25(300.0)` is Hazardous with estimate 301, AQI range
`[301, 500]` and pm25 range `[250.1, None]`: the top band's infinite upper
bound serializes as `None`, and the interpolation collapses to `aqi_low`
because the division by the infinite band width gives zero
(the table entry `mkRat 2501 10` is the literal `250.1`). -/
theorem C6_hazardous_300 :
    (mkRat 2501 10 : ℚ) = 250.1 ∧
    classify_pm25 (some (.num (.finite 300))) =
      .ok ⟨"Hazardous", some 301, some (301, 500),
        some (.finite (mkRat 2501 10), none)⟩ :=
  ⟨by rw [Rat.mkRat_eq_divInt, Rat.divInt_eq_div]; norm_num, by decide⟩

/-- C7: `iso_from_ms(1700000000000)` is the ISO-8601 UTC string
"2023-11-14T22:13:20Z" (a literal Z suffix), and both an absent input and a
string not interpretable as a number yield `None` without raising. -/
theorem C7_iso_from_ms_values :
    iso_from_ms (some (.num (.finite 1700000000000))) = some "2023-11-14T22:13:20Z" ∧
    iso_from_ms none = none ∧
    iso_from_ms (some (.str "not-a-number")) = none :=
  ⟨by decide, rfl, by decide⟩

/-- C9: the absent input and `-5.0` (below the first band's low bound) both
return the Unknown dictionary: label "Unknown", estimate `None`, and no AQI
range or pm25 range keys. -/
theorem C9_absent_and_negative_unknown :
    classify_pm25 none = .ok ⟨"Unknown", none, none, none⟩ ∧
    classify_pm25 (some (.num (.finite (-5)))) =
      .ok ⟨"Unknown", none, none, none⟩ :=
  ⟨rfl, by decide⟩

/-- C5, counterexample: the top band is `[250.1, inf]`.  At its lower bound
`classify_pm25` reports the band's ranges, but at its upper bound `inf` —
a value inside the band under the inclusive comparison — it raises
`ValueError` and reports nothing, so the two band boundaries do not resolve
to the same band as the claim requires of every band `[lo, hi]`. -/
theorem C5_counterexample :
    classify_pm25 (some (.num (.finite (mkRat 2501 10)))) =
      .ok ⟨"Hazardous", some 301, some (301, 500),
        some (.finite (mkRat 2501 10), none)⟩ ∧
    bandTest ⟨.finite (mkRat 2501 10), .inf, 301, 500, "Hazardous"⟩ PyFloat.inf = true ∧
    classify_pm25 (some (.num PyFloat.inf)) = .error PyErr.valueError ∧
    classify_pm25 (some (.num PyFloat.inf)) ≠
      .ok ⟨"Hazardous", some 301, some (301, 500),
        some (.finite (mkRat 2501 10), none)⟩ :=
  ⟨by decide, by decide, by decide, by decide⟩

/-- C5 (amended): restricted to finite concentrations, the estimate is
monotone: whenever two values lie in the same band and `classify_pm25`
returns on both, the estimates are non-decreasing.  And for every band with a
finite upper bound, classifying the two inclusive boundaries reports the same
AQI range and the same pm25 range (the top band's upper bound is `inf`, where
`classify_pm25` raises instead — see `C5_counterexample`). -/
theorem C5_monotone_and_boundaries :
    (∀ b ∈ BREAKPOINTS, ∀ q1 q2 : ℚ, bandTest b (.finite q1) = true →
      bandTest b (.finite q2) = true → q1 ≤ q2 →
      ∀ r1 r2, classify_pm25 (some (.num (.finite q1))) = .ok r1 →
        classify_pm25 (some (.num (.finite q2))) = .ok r2 →
        ∃ n1 n2, r1.sl_aqi_est = some n1 ∧ r2.sl_aqi_est = some n2 ∧ n1 ≤ n2) ∧
    (∀ b ∈ BREAKPOINTS, ∀ qhi : ℚ, b.pm_hi = .finite qhi →
      ∃ qlo r1 r2, b.pm_lo = .finite qlo ∧
        classify_pm25 (some (.num (.finite qlo))) = .ok r1 ∧
        classify_pm25 (some (.num (.finite qhi))) = .ok r2 ∧
        r1.sl_aqi_range = r2.sl_aqi_range ∧ r1.pm25_range = r2.pm25_range) := by
  constructor
  · intro b hb q1 q2 ht1 ht2 h12 r1 r2 hr1 hr2
    rw [BREAKPOINTS_values] at hb
    fin_cases hb <;>
      simp only [bandTest, pyLe, Bool.and_eq_true, decide_eq_true_eq, and_true] at ht1 ht2
    · rw [classify_good ht1.1 ht1.2] at hr1
      rw [classify_good ht2.1 ht2.2] at hr2
      injection hr1 with h1
      injection hr2 with h2
      subst h1
      subst h2
      exact ⟨_, _, rfl, rfl, pyRound_mono (interp_mono (by norm_num) (by norm_num) h12)⟩
    · rw [classify_moderate ht1.1 ht1.2] at hr1
      rw [classify_moderate ht2.1 ht2.2] at hr2
      injection hr1 with h1
      injection hr2 with h2
      subst h1
      subst h2
      exact ⟨_, _, rfl, rfl, pyRound_mono (interp_mono (by norm_num) (by norm_num) h12)⟩
    · rw [classify_usg ht1.1 ht1.2] at hr1
      rw [classify_usg ht2.1 ht2.2] at hr2
      injection hr1 with h1
      injection hr2 with h2
      subst h1
      subst h2
      exact ⟨_, _, rfl, rfl, pyRound_mono (interp_mono (by norm_num) (by norm_num) h12)⟩
    · rw [classify_unhealthy ht1.1 ht1.2] at hr1
      rw [classify_unhealthy ht2.1 ht2.2] at hr2
      injection hr1 with h1
      injection hr2 with h2
      subst h1
      subst h2
      exact ⟨_, _, rfl, rfl, pyRound_mono (interp_mono (by norm_num) (by norm_num) h12)⟩
    · rw [classify_very_unhealthy ht1.1 ht1.2] at hr1
      rw [classify_very_unhealthy ht2.1 ht2.2] at hr2
      injection hr1 with h1
      injection hr2 with h2
      subst h1
      subst h2
      exact ⟨_, _, rfl, rfl, pyRound_mono (interp_mono (by norm_num) (by norm_num) h12)⟩
    · by_cases hov1 : (q1 - 2501 / 10) * 199 < FLOAT_OVERFLOW
      · by_cases hov2 : (q2 - 2501 / 10) * 199 < FLOAT_OVERFLOW
        · rw [classify_hazardous ht1 hov1] at hr1
          rw [classify_hazardous ht2 hov2] at hr2
          injection hr1 with h1
          injection hr2 with h2
          subst h1
          subst h2
          exact ⟨301, 301, rfl, rfl, le_refl 301⟩
        · push_neg at hov2
          rw [classify_hazardous_overflow ht2 hov2] at hr2
          simp at hr2
      · push_neg at hov1
        rw [classify_hazardous_overflow ht1 hov1] at hr1
        simp at hr1
  · intro b hb qhi hq
    rw [BREAKPOINTS_values] at hb
    fin_cases hb
    · have h' : PyFloat.finite 25 = .finite qhi := hq
      injection h' with h'
      subst h'
      exact ⟨0, _, _, rfl, classify_good (by norm_num) (by norm_num),
        classify_good (by norm_num) (by norm_num), rfl, rfl⟩
    · have h' : PyFloat.finite 50 = .finite qhi := hq
      injection h' with h'
      subst h'
      exact ⟨251 / 10, _, _, rfl, classify_moderate (by norm_num) (by norm_num),
        classify_moderate (by norm_num) (by norm_num), rfl, rfl⟩
    · have h' : PyFloat.finite 75 = .finite qhi := hq
      injection h' with h'
      subst h'
      exact ⟨501 / 10, _, _, rfl, classify_usg (by norm_num) (by norm_num),
        classify_usg (by norm_num) (by norm_num), rfl, rfl⟩
    · have h' : PyFloat.finite 150 = .finite qhi := hq
      injection h' with h'
      subst h'
      exact ⟨751 / 10, _, _, rfl, classify_unhealthy (by norm_num) (by norm_num),
        classify_unhealthy (by norm_num) (by norm_num), rfl, rfl⟩
    · have h' : PyFloat.finite 250 = .finite qhi := hq
      injection h' with h'
      subst h'
      exact ⟨1501 / 10, _, _, rfl, classify_very_unhealthy (by norm_num) (by norm_num),
        classify_very_unhealthy (by norm_num) (by norm_num), rfl, rfl⟩
    · have h' : PyFloat.inf = .finite qhi := hq
      simp at h'

/-- C5, witness: monotonicity applied inside the Good band at `1.0 ≤ 2.0`
(estimates 2 and 4), and the boundary part applied to the Good band. -/
theorem C5_witness :
    (∃ n1 n2, (some (2 : ℤ)) = some n1 ∧ (some (4 : ℤ)) = some n2 ∧ n1 ≤ n2) ∧
    (∃ qlo r1 r2,
      (⟨.finite 0, .finite 25, 0, 50, "Good"⟩ : Breakpoint).pm_lo = .finite qlo ∧
      classify_pm25 (some (.num (.finite qlo))) = .ok r1 ∧
      classify_pm25 (some (.num (.finite 25))) = .ok r2 ∧
      r1.sl_aqi_range = r2.sl_aqi_range ∧ r1.pm25_range = r2.pm25_range) := by
  constructor
  · have h := C5_monotone_and_boundaries.1 ⟨.finite 0, .finite 25, 0, 50, "Good"⟩
      (by decide) 1 2 (by decide) (by decide) (by decide)
      ⟨"Good", some 2, some (0, 50), some (.finite 0, some (.finite 25))⟩
      ⟨"Good", some 4, some (0, 50), some (.finite 0, some (.finite 25))⟩
      (by decide) (by decide)
    exact h
  · exact C5_monotone_and_boundaries.2 ⟨.finite 0, .finite 25, 0, 50, "Good"⟩
      (by decide) 25 rfl

/-- C8: the output `stations` sequence is sorted ascending by the pair
(stringified `name`, stringified `meta_device_id`) — a missing field compares
as the empty string, and the comparison is plain code-point lexicographic
(`lexLe` on `Char.toNat` values, combined as a Python tuple comparison).  In
particular, for raw readings named "B" then "A" in that order, the output
lists "A" before "B" ("A" Unknown, "B" Good). -/
theorem C8_sorted_stations :
    (∀ l : List EnrichedReading,
      (sortStations l).Sorted stationLe ∧ (sortStations l).Perm l) ∧
    mainStations [⟨some "B", none, some (.num (.finite 10)), none⟩,
        ⟨some "A", none, none, none⟩] =
      .ok [⟨some "A", none, none, none, none, "Unknown", none, none, none⟩,
        ⟨some "B", none, some (.num (.finite 10)), none, none, "Good", some 20,
          some (0, 50), some (.finite 0, some (.finite 25))⟩] := by
  constructor
  · intro l
    refine ⟨@List.sorted_insertionSort _ stationLe _ ⟨fun a b => ?_⟩ ⟨fun a b c => ?_⟩ l,
      List.perm_insertionSort stationLe l⟩
    · exact keyLe_total _ _
    · exact keyLe_trans _ _ _
  · decide

/-- C8, witness: the sortedness and permutation facts instantiated on the
two-station list from the claim. -/
theorem C8_witness :
    (sortStations [⟨some "B", none, some (.num (.finite 10)), none, none, "Good", some 20,
        some (0, 50), some (.finite 0, some (.finite 25))⟩,
      ⟨some "A", none, none, none, none, "Unknown", none, none, none⟩]).Sorted stationLe ∧
    (sortStations [⟨some "B", none, some (.num (.finite 10)), none, none, "Good", some 20,
        some (0, 50), some (.finite 0, some (.finite 25))⟩,
      ⟨some "A", none, none, none, none, "Unknown", none, none, none⟩]).Perm
      [⟨some "B", none, some (.num (.finite 10)), none, none, "Good", some 20,
        some (0, 50), some (.finite 0, some (.finite 25))⟩,
      ⟨some "A", none, none, none, none, "Unknown", none, none, none⟩] :=
  C8_sorted_stations.1 _

/-- C10, counterexample: `10^306` is finite and matches the top band
(`250.1 ≤ 10^306`), yet `classify_pm25` raises `ValueError` instead of
returning an estimate: the interpolation numerator `(10^306 - 250.1) * 199`
overflows the float range to `inf`, `inf / inf` is `nan`, and
`int(round(nan))` raises. -/
theorem C10_counterexample :
    (⟨.finite (mkRat 2501 10), .inf, 301, 500, "Hazardous"⟩ : Breakpoint) ∈ BREAKPOINTS ∧
    bandTest ⟨.finite (mkRat 2501 10), .inf, 301, 500, "Hazardous"⟩
      (.finite ((10 ^ 306 : ℕ) : ℚ)) = true ∧
    classify_pm25 (some (.num (.finite ((10 ^ 306 : ℕ) : ℚ)))) = .error PyErr.valueError :=
  ⟨by decide, by decide, by decide⟩

/-- C10 (amended): for every finite concentration matching a band and below
the top band's overflow threshold (`safeInput`), `classify_pm25` returns
exactly that band's dictionary — label, the band's AQI range, the band's
serialized pm25 range — with an integer estimate inside the band's
`[aqi_low, aqi_high]` interval. -/
theorem C10_estimate_in_band (b : Breakpoint) (q : ℚ) (hb : b ∈ BREAKPOINTS)
    (ht : bandTest b (.finite q) = true) (hs : safeInput (.finite q)) :
    ∃ n, classify_pm25 (some (.num (.finite q))) = .ok (bandResult b n) ∧
      b.aqi_lo ≤ n ∧ n ≤ b.aqi_hi := by
  have hq : (q - 2501 / 10) * 199 < FLOAT_OVERFLOW := by
    have h3 : ratMul (ratSub q (mkRat 2501 10)) 199 < FLOAT_OVERFLOW := hs
    rwa [ratMul_eq, ratSub_eq, mkRat_2501] at h3
  rw [BREAKPOINTS_values] at hb
  fin_cases hb <;>
    simp only [bandTest, pyLe, Bool.and_eq_true, decide_eq_true_eq, and_true] at ht
  · have hest := interp_bounds (show (0 : ℚ) < 25 by norm_num) ht.1 ht.2
      (show (0 : ℤ) ≤ 50 by norm_num)
    refine ⟨pyRound ((0 : ℤ) + (q - (0)) * ((50 : ℤ) - ((0 : ℤ))) / ((25) - (0))), ?_, ?_, ?_⟩
    · rw [classify_good ht.1 ht.2]
      simp only [bandResult, pyEq]
      rfl
    · calc (0 : ℤ) = pyRound ((0 : ℤ) : ℚ) := (pyRound_intCast 0).symm
        _ ≤ _ := pyRound_mono hest.1
    · calc _ ≤ pyRound ((50 : ℤ) : ℚ) := pyRound_mono hest.2
        _ = 50 := pyRound_intCast 50
  · have hest := interp_bounds (show (251 / 10 : ℚ) < 50 by norm_num) ht.1 ht.2
      (show (51 : ℤ) ≤ 100 by norm_num)
    refine ⟨pyRound ((51 : ℤ) + (q - (251 / 10)) * ((100 : ℤ) - ((51 : ℤ))) / ((50) - (251 / 10))), ?_, ?_, ?_⟩
    · rw [classify_moderate ht.1 ht.2]
      simp only [bandResult, pyEq]
      rfl
    · calc (51 : ℤ) = pyRound ((51 : ℤ) : ℚ) := (pyRound_intCast 51).symm
        _ ≤ _ := pyRound_mono hest.1
    · calc _ ≤ pyRound ((100 : ℤ) : ℚ) := pyRound_mono hest.2
        _ = 100 := pyRound_intCast 100
  · have hest := interp_bounds (show (501 / 10 : ℚ) < 75 by norm_num) ht.1 ht.2
      (show (101 : ℤ) ≤ 150 by norm_num)
    refine ⟨pyRound ((101 : ℤ) + (q - (501 / 10)) * ((150 : ℤ) - ((101 : ℤ))) / ((75) - (501 / 10))), ?_, ?_, ?_⟩
    · rw [classify_usg ht.1 ht.2]
      simp only [bandResult, pyEq]
      rfl
    · calc (101 : ℤ) = pyRound ((101 : ℤ) : ℚ) := (pyRound_intCast 101).symm
        _ ≤ _ := pyRound_mono hest.1
    · calc _ ≤ pyRound ((150 : ℤ) : ℚ) := pyRound_mono hest.2
        _ = 150 := pyRound_intCast 150
  · have hest := interp_bounds (show (751 / 10 : ℚ) < 150 by norm_num) ht.1 ht.2
      (show (151 : ℤ) ≤ 200 by norm_num)
    refine ⟨pyRound ((151 : ℤ) + (q - (751 / 10)) * ((200 : ℤ) - ((151 : ℤ))) / ((150) - (751 / 10))), ?_, ?_, ?_⟩
    · rw [classify_unhealthy ht.1 ht.2]
      simp only [bandResult, pyEq]
      rfl
    · calc (151 : ℤ) = pyRound ((151 : ℤ) : ℚ) := (pyRound_intCast 151).symm
        _ ≤ _ := pyRound_mono hest.1
    · calc _ ≤ pyRound ((200 : ℤ) : ℚ) := pyRound_mono hest.2
        _ = 200 := pyRound_intCast 200
  · have hest := interp_bounds (show (1501 / 10 : ℚ) < 250 by norm_num) ht.1 ht.2
      (show (201 : ℤ) ≤ 300 by norm_num)
    refine ⟨pyRound ((201 : ℤ) + (q - (1501 / 10)) * ((300 : ℤ) - ((201 : ℤ))) / ((250) - (1501 / 10))), ?_, ?_, ?_⟩
    · rw [classify_very_unhealthy ht.1 ht.2]
      simp only [bandResult, pyEq]
      rfl
    · calc (201 : ℤ) = pyRound ((201 : ℤ) : ℚ) := (pyRound_intCast 201).symm
        _ ≤ _ := pyRound_mono hest.1
    · calc _ ≤ pyRound ((300 : ℤ) : ℚ) := pyRound_mono hest.2
        _ = 300 := pyRound_intCast 300
  · refine ⟨301, ?_, by norm_num, by norm_num⟩
    rw [classify_hazardous ht hq]
    simp only [bandResult, pyEq]
    rfl

/-- C10, witness: the amended theorem applied to the Good band at `10.0`. -/
theorem C10_witness :
    (⟨.finite 0, .finite 25, 0, 50, "Good"⟩ : Breakpoint) ∈ BREAKPOINTS ∧
    bandTest ⟨.finite 0, .finite 25, 0, 50, "Good"⟩ (.finite 10) = true ∧
    ∃ n, classify_pm25 (some (.num (.finite 10))) =
        .ok (bandResult ⟨.finite 0, .finite 25, 0, 50, "Good"⟩ n) ∧
      (⟨.finite 0, .finite 25, 0, 50, "Good"⟩ : Breakpoint).aqi_lo ≤ n ∧
      n ≤ (⟨.finite 0, .finite 25, 0, 50, "Good"⟩ : Breakpoint).aqi_hi :=
  ⟨by decide, by decide,
    C10_estimate_in_band ⟨.finite 0, .finite 25, 0, 50, "Good"⟩ 10 (by decide)
      (by decide) (by decide)⟩

end AirQuality
